import Mathlib

/-! Weather station firmware configuration.

A shallow embedding of `firmware/weather_sensor/config.h`, the configuration
header of the weather-sensor firmware.  The header consists of six file-scope
declarations and nothing else:

    const char *ssid = "HUAWEI_B535_5FF0";
    const char *password = "9RLT1B43A32";
    const char *serverUrl = "http://RASPBERRY_PI_IP:5000/api/reading";
    const int serverPort = 5000;
    const int DHT_PIN = 4;
    const int BMP_I2C_ADDR = 0x76;

The embedding has two layers.

* The *values*: every initialiser becomes a Lean constant of the same name
  (string literals as `String`, integer literals as `Int`).
* The *declarations*: every declaration becomes a `Decl` recording the declared
  C type with its `const` qualifiers, so that statements about which objects
  may be assigned to can be made.

The remaining definitions (`parseUrl`, `isDottedDecimalIPv4`, ...) are the
validators the specification describes in words; they are not part of the
header and are used only to state properties of the constants.
-/

namespace WeatherStation

/-! ## Values of the configuration constants -/

/-- Value of `const char *ssid = "HUAWEI_B535_5FF0";` (config.h, line 2). -/
def ssid : String := "HUAWEI_B535_5FF0"

/-- Value of `const char *password = "9RLT1B43A32";` (config.h, line 3). -/
def password : String := "9RLT1B43A32"

/-- Value of `const char *serverUrl = "http://RASPBERRY_PI_IP:5000/api/reading";`
(config.h, line 6). -/
def serverUrl : String := "http://RASPBERRY_PI_IP:5000/api/reading"

/-- Value of `const int serverPort = 5000;` (config.h, line 7). -/
def serverPort : Int := 5000

/-- Value of `const int DHT_PIN = 4;  // DHT22 data pin` (config.h, line 10). -/
def DHT_PIN : Int := 4

/-- Value of `const int BMP_I2C_ADDR = 0x76;  // BMP280 I2C address`
(config.h, line 11). -/
def BMP_I2C_ADDR : Int := 0x76

/-! ## Declarations with their C types -/

/-- The fragment of C types occurring in the header.  Each constructor carries
the `const` qualifier that applies to the type at that level: in
`const char *p` the qualifier belongs to the `char`, the pointer `p` itself is
unqualified; in `const int n` the qualifier belongs to the `int` object. -/
inductive CType where
  | int (isConst : Bool)
  | char (isConst : Bool)
  | ptr (isConst : Bool) (pointee : CType)
  deriving DecidableEq, Repr

namespace CType

/-- The qualifier of the type itself (the top level): whether an object of this
type is `const`-qualified. -/
def topConst : CType → Bool
  | .int q => q
  | .char q => q
  | .ptr q _ => q

/-- For a pointer type, whether the pointed-to type is `const`-qualified;
`none` for a type that is not a pointer. -/
def pointeeConst : CType → Option Bool
  | .ptr _ t => some t.topConst
  | _ => none

end CType

/-- The initialiser of a declaration. -/
inductive Init where
  | str (s : String)
  | num (n : Int)
  deriving DecidableEq, Repr

/-- A file-scope declaration `ty name = init;`. -/
structure Decl where
  name : String
  ty : CType
  init : Init
  deriving DecidableEq, Repr

/-- An object is a modifiable lvalue, so that `name = e;` is a well-formed
assignment after initialisation, exactly when its type is not
`const`-qualified at the top level (C11 6.3.2.1p1, 6.5.16p2). -/
def Decl.assignable (d : Decl) : Bool := !d.ty.topConst

/-- Whether a value can be stored in an object of the given type: a string
(the address of its characters) in a pointer to `char`, a number in an `int`. -/
def CType.accepts : CType → Init → Bool
  | .ptr _ (.char _), .str _ => true
  | .int _, .num _ => true
  | _, _ => false

/-- The assignment statement `name = v;` executed after initialisation: it is
rejected (`none`) when the object is not a modifiable lvalue or the value does
not fit the type, and otherwise the object holds `v` from then on. -/
def Decl.assign (d : Decl) (v : Init) : Option Decl :=
  if d.assignable && d.ty.accepts v then some ⟨d.name, d.ty, v⟩ else none

/-- Declaration `const char *ssid = ...;`: a pointer, itself unqualified, to
`const char`. -/
def ssidDecl : Decl := ⟨"ssid", .ptr false (.char true), .str ssid⟩

/-- Declaration `const char *password = ...;`: a pointer, itself unqualified,
to `const char`. -/
def passwordDecl : Decl := ⟨"password", .ptr false (.char true), .str password⟩

/-- Declaration `const char *serverUrl = ...;`: a pointer, itself unqualified,
to `const char`. -/
def serverUrlDecl : Decl := ⟨"serverUrl", .ptr false (.char true), .str serverUrl⟩

/-- Declaration `const int serverPort = 5000;`: a `const`-qualified `int`. -/
def serverPortDecl : Decl := ⟨"serverPort", .int true, .num serverPort⟩

/-- Declaration `const int DHT_PIN = 4;`: a `const`-qualified `int`. -/
def dhtPinDecl : Decl := ⟨"DHT_PIN", .int true, .num DHT_PIN⟩

/-- Declaration `const int BMP_I2C_ADDR = 0x76;`: a `const`-qualified `int`. -/
def bmpI2cAddrDecl : Decl := ⟨"BMP_I2C_ADDR", .int true, .num BMP_I2C_ADDR⟩

/-- The header: its six declarations in source order. -/
def configDecls : List Decl :=
  [ssidDecl, passwordDecl, serverUrlDecl, serverPortDecl, dhtPinDecl, bmpI2cAddrDecl]

/-! ## Validators described by the specification -/

/-- Remove the character list `pre` from the front of a character list, if it
is there. -/
def dropLeading : List Char → List Char → Option (List Char)
  | [], s => some s
  | _ :: _, [] => none
  | a :: pre, c :: s => if a = c then dropLeading pre s else none

/-- Split at the first occurrence of `sep`: the text before it and the text
after it.  `none` when `sep` does not occur. -/
def splitAtFirst (sep : List Char) : List Char → Option (List Char × List Char)
  | [] => (dropLeading sep []).map fun rest => ([], rest)
  | c :: s =>
    match dropLeading sep (c :: s) with
    | some rest => some ([], rest)
    | none => (splitAtFirst sep s).map fun p => (c :: p.1, p.2)

/-- The longest initial segment without the character `stop`, and the rest
(which is empty or starts with `stop`). -/
def spanUntil (stop : Char) : List Char → List Char × List Char
  | [] => ([], [])
  | c :: s =>
    if c = stop then ([], c :: s)
    else ((spanUntil stop s).1.cons c, (spanUntil stop s).2)

/-- The components of a URL `scheme://host[:port]path`. -/
structure Url where
  scheme : List Char
  host : List Char
  port : Option (List Char)
  path : List Char
  deriving DecidableEq, Repr

/-- Split a URL as `scheme "://" host [":" port] path`: the scheme is the text
before the first `://`; the authority runs from there to the first `/`; the
path is the text from that `/` to the end; inside the authority the host is the
text before the first `:` and the port, when a `:` is present, the text after
it. -/
def parseUrlChars (s : List Char) : Option Url :=
  match splitAtFirst [':', '/', '/'] s with
  | none => none
  | some (scheme, rest) =>
    let authority := (spanUntil '/' rest).1
    let path := (spanUntil '/' rest).2
    let host := (spanUntil ':' authority).1
    let port := match (spanUntil ':' authority).2 with
      | [] => none
      | _ :: digits => some digits
    some ⟨scheme, host, port, path⟩

/-- Parse the URL held in a string. -/
def parseUrl (s : String) : Option Url := parseUrlChars s.toList

/-- Value of a decimal digit character. -/
def digitValue (c : Char) : Option Nat :=
  if '0' ≤ c ∧ c ≤ '9' then some (c.toNat - '0'.toNat) else none

/-- Read a list of decimal digits, most significant first, on top of the
value `acc` read so far; `none` if a character is not a digit. -/
def readDigits (acc : Nat) : List Char → Option Nat
  | [] => some acc
  | c :: s =>
    match digitValue c with
    | some d => readDigits (10 * acc + d) s
    | none => none

/-- Read a non-empty list of decimal digits as a natural number. -/
def readDecimal : List Char → Option Nat
  | [] => none
  | c :: s => readDigits 0 (c :: s)

/-- The port a URL string encodes: the decimal number between the `:` after
the host and the next `/`. -/
def urlPort (s : String) : Option Nat :=
  match parseUrl s with
  | some u =>
    match u.port with
    | some digits => readDecimal digits
    | none => none
  | none => none

/-- A URL is well formed with a non-empty host and path when it splits as
`scheme://host[:port]path` with scheme, host and path all non-empty. -/
def wellFormedUrl (s : String) : Bool :=
  match parseUrl s with
  | some u => !u.scheme.isEmpty && !u.host.isEmpty && !u.path.isEmpty
  | none => false

/-- Split a character list at every occurrence of `sep`. -/
def splitAll (sep : Char) : List Char → List (List Char)
  | [] => [[]]
  | c :: s =>
    if c = sep then [] :: splitAll sep s
    else
      match splitAll sep s with
      | [] => [[c]]
      | part :: parts => (c :: part) :: parts

/-- A dotted-decimal IPv4 address: four non-empty decimal numbers, each at most
255, separated by `.`. -/
def isDottedDecimalIPv4 (host : List Char) : Bool :=
  let parts := splitAll '.' host
  parts.length == 4 &&
    parts.all fun part =>
      match readDecimal part with
      | some n => n ≤ 255
      | none => false

/-- The characters RFC 1123 allows in a host name: letters, digits, `-` and
`.`. -/
def isHostNameChar (c : Char) : Bool :=
  c.isAlpha || c.isDigit || c == '-' || c == '.'

/-- A valid RFC 1123 host name: only host-name characters, and every label
between dots is non-empty and neither starts nor ends with `-`. -/
def isRFC1123HostName (host : List Char) : Bool :=
  host.all isHostNameChar &&
    (splitAll '.' host).all fun label =>
      !label.isEmpty && label.head? != some '-' && label.getLast? != some '-'

/-- Printable ASCII: code 0x20 to 0x7E. -/
def isPrintableAscii (c : Char) : Bool :=
  0x20 ≤ c.toNat && c.toNat ≤ 0x7E


/-! ## Properties of the configuration -/

/-- C1: the port encoded in `serverUrl` equals `serverPort`.  Splitting
`serverUrl` as scheme://host:port/path and reading the decimal digits between
the `:` after the host and the next `/` gives 5000, and `serverPort` is
5000. -/
theorem serverUrl_port_eq_serverPort :
    urlPort serverUrl = some 5000 ∧ serverPort = 5000 ∧
      (urlPort serverUrl).map Int.ofNat = some serverPort := by
  decide

/-- C2: `BMP_I2C_ADDR` is one of the two addresses the BMP280 permits, 0x76 or
0x77 (118 or 119). -/
theorem BMP_I2C_ADDR_permitted :
    (BMP_I2C_ADDR = 0x76 ∨ BMP_I2C_ADDR = 0x77) ∧
      (BMP_I2C_ADDR = 118 ∨ BMP_I2C_ADDR = 119) := by
  decide

/-- C3: `serverUrl` is a well-formed URL with a non-empty host and a non-empty
path.  It splits as scheme "://" host ":" port path, the pieces put together
again give back the string, and scheme, host and path are all non-empty. -/
theorem serverUrl_well_formed :
    ∃ u digits, parseUrl serverUrl = some u ∧ u.port = some digits ∧
      u.scheme ++ [':', '/', '/'] ++ u.host ++ [':'] ++ digits ++ u.path
        = serverUrl.toList ∧
      u.scheme ≠ [] ∧ u.host ≠ [] ∧ u.path ≠ [] ∧ u.path.head? = some '/' ∧
      wellFormedUrl serverUrl = true :=
  ⟨⟨"http".toList, "RASPBERRY_PI_IP".toList, some "5000".toList, "/api/reading".toList⟩,
    "5000".toList, by decide, rfl, by decide, by decide, by decide, by decide,
    by decide, by decide⟩

/-- C4, as stated, fails: not every one of the six declared objects is
`const`-qualified.  `ssid` is declared `const char *ssid`, a pointer that is
itself unqualified, so the assignment `ssid = "guest";` is accepted and `ssid`
holds the new value afterwards. -/
theorem ssid_pointer_assignable :
    ssidDecl ∈ configDecls ∧ ssidDecl.ty.topConst = false ∧
      ssidDecl.assign (.str "guest")
        = some ⟨"ssid", .ptr false (.char true), .str "guest"⟩ ∧
      configDecls.all (fun d => d.ty.topConst) = false := by
  decide

/-- C4, amended: the header declares exactly the six settings; the three integer
settings `serverPort`, `DHT_PIN`, `BMP_I2C_ADDR` are `const`-qualified objects
and no assignment to them is accepted, whatever the value; for the three string
settings `ssid`, `password`, `serverUrl` the characters pointed to are
`const`-qualified, while the pointer variable itself is not. -/
theorem config_const_qualification :
    configDecls.map Decl.name
        = ["ssid", "password", "serverUrl", "serverPort", "DHT_PIN", "BMP_I2C_ADDR"] ∧
      (∀ v, serverPortDecl.assign v = none ∧ dhtPinDecl.assign v = none ∧
        bmpI2cAddrDecl.assign v = none) ∧
      [serverPortDecl, dhtPinDecl, bmpI2cAddrDecl].all (fun d => d.ty.topConst) = true ∧
      [ssidDecl, passwordDecl, serverUrlDecl].all
        (fun d => d.ty.pointeeConst == some true && !d.ty.topConst) = true := by
  refine ⟨by decide, fun v => ⟨rfl, rfl, rfl⟩, by decide, by decide⟩

/-- C5: `ssid` and `password` are non-empty strings. -/
theorem ssid_password_nonempty : 0 < ssid.length ∧ 0 < password.length := by
  decide

/-- C6: `DHT_PIN` is non-negative and lies inside every digital-pin range
`[0, N]` with `N ≥ 4`. -/
theorem DHT_PIN_in_pin_range (N : Int) (hN : 4 ≤ N) : 0 ≤ DHT_PIN ∧ DHT_PIN ≤ N :=
  ⟨by decide, hN⟩

/-- C6 at the pin range `[0, 39]`. -/
theorem DHT_PIN_in_pin_range_witness : (4 : Int) ≤ 39 ∧ (0 ≤ DHT_PIN ∧ DHT_PIN ≤ 39) :=
  ⟨by decide, DHT_PIN_in_pin_range 39 (by decide)⟩

/-- C7: the numeric settings lie in the ranges of their semantic types:
`serverPort` is a valid TCP port, between 1 and 65535, and `BMP_I2C_ADDR` fits
a 7-bit I2C address, between 0 and 127. -/
theorem numeric_settings_in_range :
    (1 ≤ serverPort ∧ serverPort ≤ 65535) ∧ (0 ≤ BMP_I2C_ADDR ∧ BMP_I2C_ADDR ≤ 127) := by
  decide

/-- C8: `serverUrl` is a fully qualified HTTP URL with path `/api/reading`: its
scheme is exactly "http", a host is present, and everything from the first `/`
after the authority to the end of the string is exactly "/api/reading", with
no query (`?`) and no fragment (`#`). -/
theorem serverUrl_http_api_reading :
    ∃ u, parseUrl serverUrl = some u ∧ u.scheme = "http".toList ∧ u.host ≠ [] ∧
      u.path = "/api/reading".toList ∧
      '?' ∉ serverUrl.toList ∧ '#' ∉ serverUrl.toList :=
  ⟨⟨"http".toList, "RASPBERRY_PI_IP".toList, some "5000".toList, "/api/reading".toList⟩,
    by decide, rfl, by decide, rfl, by decide, by decide⟩

/-- C9: the host of `serverUrl` is the placeholder `RASPBERRY_PI_IP`, 15
characters long, and not a concrete address: it has no digit and no `.`, so it
is not a dotted-decimal IPv4 address, and it contains `_`, so it is not a
valid RFC 1123 host name. -/
theorem serverUrl_host_placeholder :
    ∃ u, parseUrl serverUrl = some u ∧ u.host = "RASPBERRY_PI_IP".toList ∧
      u.host.length = 15 ∧
      u.host.all (fun c => !c.isDigit && c != '.') = true ∧
      isDottedDecimalIPv4 u.host = false ∧
      '_' ∈ u.host ∧ isHostNameChar '_' = false ∧
      isRFC1123HostName u.host = false :=
  ⟨⟨"http".toList, "RASPBERRY_PI_IP".toList, some "5000".toList, "/api/reading".toList⟩,
    by decide, rfl, by decide, by decide, by decide, by decide, by decide, by decide⟩

/-- C10: the WiFi credentials have the shape a WPA2 association accepts: `ssid`
is 1 to 32 bytes long, `password` is 8 to 63 characters long, and every
character of both is printable ASCII (0x20 to 0x7E). -/
theorem wifi_credentials_wpa2_shape :
    (1 ≤ ssid.utf8ByteSize ∧ ssid.utf8ByteSize ≤ 32) ∧
      (8 ≤ password.length ∧ password.length ≤ 63) ∧
      ssid.toList.all isPrintableAscii = true ∧
      password.toList.all isPrintableAscii = true := by
  decide

end WeatherStation
